import Mathlib

set_option maxRecDepth 8192

/-!
Verification of the go-mqtt-timescale ingestion pipeline.

This file gives a shallow embedding of the repository's ingestion code:
the tolerant payload decoder (`internal/mqtt/client.go`), the TimescaleDB
store gateway (both near-duplicate `database` package variants found in
the sources), and the shutdown channel of the MQTT client. The theorems
at the end settle the frozen specification claims against the embedding.

Modelling conventions:
* Go `float64` values are modelled exactly: a value is either a rational
  number, an infinity, or NaN (`GoFloat`). Rounding of decimal literals
  to binary doubles is outside the model; the overflow threshold of
  `strconv.ParseFloat` is kept, because an out-of-range string makes the
  scan fail, which is visible to the decoder.
* `time.Time` is modelled by its broken-down fields plus the fixed zone
  offset (`GoTime`), so "uses the parsed time verbatim including its
  offset" is structural equality.
* `json.Unmarshal` and the live Postgres connection are external
  collaborators: the decoder is parameterised over the unmarshal result
  and the insert path over the driver's outcome, while schema statements
  are executed against an executable model of the Postgres catalog that
  parses the exact SQL text the code builds.
-/

/-- A Go `float64` value: finite values are kept as exact rationals. -/
inductive GoFloat where
  | fin (q : ℚ)
  | inf (neg : Bool)
  | nan
  deriving DecidableEq, Repr

/-- The universe of values a Go `interface{}` decoded from JSON (or handed
to `getFloat64Value`) can hold. `json.Unmarshal` only produces `vfloat`,
`vstr`, `vbool`, `vnull`, `varr` and `vobj`; `vint`/`vint64` exist because
`getFloat64Value` switches on them. -/
inductive GoVal where
  | vfloat (q : ℚ)
  | vstr (s : String)
  | vbool (b : Bool)
  | vnull
  | varr (xs : List GoVal)
  | vobj (fields : List (String × GoVal))
  | vint (n : ℤ)
  | vint64 (n : ℤ)

/-- Go map lookup `data[key]` over the decoded key/value structure. -/
def mapGet (m : List (String × GoVal)) (k : String) : Option GoVal :=
  match m with
  | [] => none
  | (k', v) :: rest => if k' = k then some v else mapGet rest k

/-! ### The `fmt.Sscanf(s, "%f", &f)` scanner

`parseFloat` in `client.go` delegates to `fmt.Sscanf` with the `%f` verb.
The scanner skips leading spaces, greedily collects a float-shaped token
(`floatToken` in Go's `fmt/scan.go`) and converts it with
`strconv.ParseFloat`, with a special branch for `p`-exponents
(`convertFloat`). Trailing input after the token is not an error. -/

/-- Scanner state: accepted characters so far and remaining input. -/
structure FScan where
  buf : List Char
  rest : List Char

/-- Go `ss.accept(set)`: consume the next char when it belongs to `set`. -/
def fsAccept (set : List Char) (s : FScan) : Bool × FScan :=
  match s.rest with
  | c :: cs => if set.contains c then (true, ⟨s.buf ++ [c], cs⟩) else (false, s)
  | [] => (false, s)

/-- Split off the longest prefix of characters belonging to `set`. -/
def spanChars (set : List Char) : List Char → List Char × List Char
  | [] => ([], [])
  | c :: cs =>
    if set.contains c then
      let (t, r) := spanChars set cs
      (c :: t, r)
    else ([], c :: cs)

/-- Repeated `accept` of a character set. -/
def fsMany (set : List Char) (s : FScan) : FScan :=
  let (t, r) := spanChars set s.rest
  ⟨s.buf ++ t, r⟩

def decDigits : List Char := "0123456789".toList

def hexDigits : List Char := "0123456789aAbBcCdDeEfF".toList

def signChars : List Char := "+-".toList

def expoChars : List Char := "eEpP".toList

/-- Go `fmt`'s `floatToken`: greedily scan a float-shaped token. Returns
the token and the unconsumed input, or `none` when the scanner raises
(a malformed `Inf`). Mirrors the accept sequence of `fmt/scan.go`,
including the partial-`NaN` fallthrough that keeps consumed characters. -/
def floatToken (input : List Char) : Option (List Char × List Char) := Id.run do
  let mut s : FScan := ⟨[], input⟩
  -- NaN?
  let (okN, s1) := fsAccept "nN".toList s
  if okN then
    let (okA, s2) := fsAccept "aA".toList s1
    if okA then
      let (okN2, s3) := fsAccept "nN".toList s2
      if okN2 then
        return some (s3.buf, s3.rest)
      s := s3
    else
      s := s2
  else
    s := s1
  -- leading sign?
  let (_, sSign) := fsAccept signChars s
  s := sSign
  -- Inf?
  let (okI, s4) := fsAccept "iI".toList s
  if okI then
    let (okInfN, s5) := fsAccept "nN".toList s4
    if okInfN then
      let (okF, s6) := fsAccept "fF".toList s5
      if okF then
        return some (s6.buf, s6.rest)
    return none
  -- digits, switching to hexadecimal after a 0x prefix
  let mut digits := decDigits
  let (ok0, s7) := fsAccept "0".toList s
  s := s7
  if ok0 then
    let (okX, s8) := fsAccept "xX".toList s
    if okX then
      digits := hexDigits
      s := s8
  s := fsMany digits s
  -- decimal point?
  let (okP, s9) := fsAccept ".".toList s
  if okP then
    s := fsMany digits s9
  else
    s := s9
  -- exponent?
  let (okE, s10) := fsAccept expoChars s
  if okE then
    let (_, s11) := fsAccept signChars s10
    s := fsMany digits s11
  else
    s := s10
  return some (s.buf, s.rest)

/-- Case-insensitive comparison of a character list against a lowercase
pattern. -/
def eqFoldLower (cs : List Char) (pat : List Char) : Bool :=
  match cs, pat with
  | [], [] => true
  | c :: cs, p :: ps => (c.toLower = p) && eqFoldLower cs ps
  | _, _ => false

def digitVal (c : Char) : Option ℕ :=
  if c.isDigit then some (c.toNat - 48) else none

def hexDigitVal (c : Char) : Option ℕ :=
  if c.isDigit then some (c.toNat - 48)
  else if 'a' ≤ c ∧ c ≤ 'f' then some (c.toNat - 87)
  else if 'A' ≤ c ∧ c ≤ 'F' then some (c.toNat - 55)
  else none

def readDigits (cs : List Char) : List Char × List Char :=
  spanChars decDigits cs

def digitsToNat (ds : List Char) : ℕ :=
  ds.foldl (fun acc c => acc * 10 + (c.toNat - 48)) 0

def hexDigitsToNat (ds : List Char) : ℕ :=
  ds.foldl (fun acc c =>
    acc * 16 + (match hexDigitVal c with | some v => v | none => 0)) 0

/-- The exact rational `m * 10 ^ e10`, built with `Rat.divInt` so that it
evaluates by kernel reduction. -/
def scaled10 (m : ℤ) (e10 : ℤ) : ℚ :=
  if 0 ≤ e10 then Rat.divInt (m * ((10 ^ e10.toNat : ℕ) : ℤ)) 1
  else Rat.divInt m ((10 ^ (-e10).toNat : ℕ) : ℤ)

/-- The exact rational `m * 2 ^ e2`, built with `Rat.divInt`. -/
def scaled2 (m : ℤ) (e2 : ℤ) : ℚ :=
  if 0 ≤ e2 then Rat.divInt (m * ((2 ^ e2.toNat : ℕ) : ℤ)) 1
  else Rat.divInt m ((2 ^ (-e2).toNat : ℕ) : ℤ)

/-- Multiply an exact rational by `2 ^ e2`. -/
def mulPow2 (q : ℚ) (e2 : ℤ) : ℚ :=
  if 0 ≤ e2 then Rat.divInt (q.num * ((2 ^ e2.toNat : ℕ) : ℤ)) (q.den : ℤ)
  else Rat.divInt q.num ((q.den : ℤ) * ((2 ^ (-e2).toNat : ℕ) : ℤ))

/-- The smallest magnitude that `strconv.ParseFloat` reports as a range
error for 64-bit floats: values at or above the rounding boundary of the
largest finite double become `±Inf` with `ErrRange`. -/
def overflowBound : ℚ := ((2 ^ 1024 - 2 ^ 970 : ℕ) : ℚ)

/-- Absolute value on the rationals by a computable sign test. -/
def qabs (q : ℚ) : ℚ := if q.num < 0 then -q else q

/-- `|q|` stays below the `ParseFloat` overflow threshold. -/
def inF64Range (q : ℚ) : Bool := Rat.blt (qabs q) overflowBound

/-- Decimal branch of `strconv.ParseFloat`:
`digits [. digits] [eE [sign] digits]`, at least one mantissa digit, full
consumption, with the 64-bit overflow threshold. -/
def strconvParseDec (neg : Bool) (body : List Char) : Option GoFloat :=
  let (ip, r1) := readDigits body
  let (fp, r2) :=
    match r1 with
    | '.' :: r' => readDigits r'
    | _ => ([], r1)
  if ip.isEmpty && fp.isEmpty then none
  else
    let finish (e : ℤ) (rest : List Char) : Option GoFloat :=
      if ¬rest.isEmpty then none
      else
        let q := scaled10 ((if neg then -1 else 1) * ((digitsToNat (ip ++ fp) : ℕ) : ℤ))
          (e - (fp.length : ℤ))
        if inF64Range q then some (GoFloat.fin q) else none
    match r2 with
    | e :: r3 =>
      if e = 'e' ∨ e = 'E' then
        let (eneg, r4) :=
          match r3 with
          | '+' :: r' => (false, r')
          | '-' :: r' => (true, r')
          | r' => (false, r')
        let (eds, r5) := readDigits r4
        if eds.isEmpty then none
        else finish ((if eneg then -1 else 1) * (digitsToNat eds : ℤ)) r5
      else none
    | [] => finish 0 []

/-- Model of `strconv.ParseFloat(s, 64)`. Exact-rational semantics for
in-range finite values; out-of-range values surface as `none` because the
caller (`fmt`'s `convertFloat`) turns any `ParseFloat` error, range errors
included, into a scan error. The whole string must be consumed. -/
def strconvParseFloat (cs : List Char) : Option GoFloat :=
  match cs with
  | [] => none
  | _ =>
    let (neg, hadSign, body) :=
      match cs with
      | '+' :: r => (false, true, r)
      | '-' :: r => (true, true, r)
      | r => (false, false, r)
    if eqFoldLower body "inf".toList || eqFoldLower body "infinity".toList then
      some (GoFloat.inf neg)
    else if !hadSign && eqFoldLower body "nan".toList then
      some GoFloat.nan
    else
      match body with
      | '0' :: x :: r =>
        if x = 'x' ∨ x = 'X' then
          -- hexadecimal mantissa with mandatory binary exponent
          let (ip, r1) := spanChars hexDigits r
          let (fp, r2) :=
            match r1 with
            | '.' :: r' => spanChars hexDigits r'
            | _ => ([], r1)
          if ip.isEmpty && fp.isEmpty then none
          else
            match r2 with
            | p :: r3 =>
              if p = 'p' ∨ p = 'P' then
                let (eneg, r4) :=
                  match r3 with
                  | '+' :: r' => (false, r')
                  | '-' :: r' => (true, r')
                  | r' => (false, r')
                let (eds, r5) := readDigits r4
                if eds.isEmpty ∨ ¬r5.isEmpty then none
                else
                  let e : ℤ := (if eneg then -1 else 1) * (digitsToNat eds : ℤ)
                  -- mantissa / 16 ^ |fraction| * 2 ^ e, i.e. scaled by 2 ^ (e - 4*|fraction|)
                  let q := scaled2 ((if neg then -1 else 1) * (hexDigitsToNat (ip ++ fp) : ℤ))
                    (e - 4 * (fp.length : ℤ))
                  if inF64Range q then some (GoFloat.fin q) else none
              else none
            | [] => none
        else
          strconvParseDec neg body
      | _ => strconvParseDec neg body

/-- Model of `strconv.Atoi`: optional sign, one or more decimal digits,
full consumption. -/
def goAtoi (cs : List Char) : Option ℤ :=
  let (neg, body) :=
    match cs with
    | '+' :: r => (false, r)
    | '-' :: r => (true, r)
    | r => (false, r)
  let (ds, rest) := readDigits body
  if ds.isEmpty ∨ ¬rest.isEmpty then none
  else some ((if neg then -1 else 1) * (digitsToNat ds : ℤ))

/-- `math.Ldexp`: multiply by a power of two; infinities and NaN pass
through. -/
def goLdexp : GoFloat → ℤ → GoFloat
  | GoFloat.fin q, m => GoFloat.fin (mulPow2 q m)
  | GoFloat.inf b, _ => GoFloat.inf b
  | GoFloat.nan, _ => GoFloat.nan

/-- Go `fmt`'s `convertFloat`: a token containing a lowercase `p` is split
into mantissa and power-of-two exponent (`ParseFloat` on the mantissa,
`Atoi` on the exponent, combined with `Ldexp`); any other token goes to
`ParseFloat` whole. Any conversion error becomes a scan error. -/
def convertFloat (tok : List Char) : Except Unit GoFloat :=
  match tok.indexOf? 'p' with
  | some p =>
    match strconvParseFloat (tok.take p), goAtoi (tok.drop (p + 1)) with
    | some f, some m => Except.ok (goLdexp f m)
    | _, _ => Except.error ()
  | none =>
    match strconvParseFloat tok with
    | some f => Except.ok f
    | none => Except.error ()

/-- Leading-space skipping of `Sscanf` (newlines in the input must match
the format, so a newline is a scan error). -/
def skipLeadingSpace : List Char → Option (List Char)
  | [] => some []
  | c :: cs =>
    if c = '\n' then none
    else if c = ' ' ∨ c = '\t' ∨ c = '\x0b' ∨ c = '\x0c' ∨ c = '\r' then
      skipLeadingSpace cs
    else some (c :: cs)

/-- `parseFloat` from `internal/mqtt/client.go`: `fmt.Sscanf(s, "%f", &f)`.
Unconsumed trailing input is not an error. -/
def parseFloat (s : String) : Except Unit GoFloat :=
  match skipLeadingSpace s.toList with
  | none => Except.error ()
  | some rest =>
    match floatToken rest with
    | none => Except.error ()
    | some (tok, _) => convertFloat tok

/-- `getFloat64Value` from `internal/mqtt/client.go`: safely extract a
float64 from the decoded map, coercing native floats, integers and
parseable strings; everything else yields `(0, false)`. -/
def getFloat64Value (data : List (String × GoVal)) (key : String) : GoFloat × Bool :=
  match mapGet data key with
  | some v =>
    match v with
    | GoVal.vfloat q => (GoFloat.fin q, true)
    | GoVal.vstr s =>
      match parseFloat s with
      | Except.ok f => (f, true)
      | Except.error _ => (GoFloat.fin 0, false)
    | GoVal.vint n => (GoFloat.fin (n : ℚ), true)
    | GoVal.vint64 n => (GoFloat.fin (n : ℚ), true)
    | _ => (GoFloat.fin 0, false)
  | none => (GoFloat.fin 0, false)

deriving instance DecidableEq for Except

example : parseFloat "24.5abc" = Except.ok (GoFloat.fin (Rat.divInt 49 2)) := by decide
example : parseFloat "abc" = Except.error () := by decide
example : parseFloat "" = Except.error () := by decide
example : parseFloat "-3e2" = Except.ok (GoFloat.fin (Rat.divInt (-300) 1)) := by decide
example : parseFloat "1e" = Except.error () := by decide
example : parseFloat "inf" = Except.ok (GoFloat.inf false) := by decide
example : parseFloat "NaN" = Except.ok GoFloat.nan := by decide
example : getFloat64Value [("temperature", GoVal.vstr "24.5abc")] "temperature"
    = (GoFloat.fin (Rat.divInt 49 2), true) := by decide

/-! ### `time.Time` and `time.Parse(time.RFC3339, s)`

`processMessage` parses the `timestamp` field with the RFC3339 layout.
`time.Parse` first tries a strict fast path for this layout and, when
that fails, falls back to the generic layout parser; everything the fast
path accepts the generic parser accepts with the same result, so the
function as a whole accepts exactly what the generic parser does:
four-digit year; two-digit month and day (range-checked, day against the
month length); an uppercase `T`; an hour of one or two digits (`15` is a
non-zero-padded chunk, read by `getnum` without the fixed-width flag)
range-checked below 24; two-digit minute and second below 60; an
optional fractional second introduced by `.` or `,`; and a zone that is
the literal `Z` or `±hh:mm` with two digits each — the generic parser
puts no range bound on the zone offset, so `+24:00` or `+10:60` are
accepted. The parsed time keeps the wall-clock fields together with the
fixed offset it was written with, which `GoTime` mirrors. -/

/-- A Go `time.Time` restricted to what the pipeline observes: the
broken-down wall clock plus the fixed zone offset in minutes. -/
structure GoTime where
  year : ℕ
  month : ℕ
  day : ℕ
  hour : ℕ
  minute : ℕ
  second : ℕ
  nanos : ℕ
  offsetMin : ℤ
  deriving DecidableEq, Repr

/-- Exactly `n` decimal digits. -/
def readNDigits (n : ℕ) (cs : List Char) : Option (ℕ × List Char) :=
  let ds := cs.take n
  if ds.length = n ∧ ds.all (·.isDigit) then some (digitsToNat ds, cs.drop n)
  else none

def expectChar (c : Char) : List Char → Option (List Char)
  | x :: r => if x = c then some r else none
  | [] => none

def isLeapYear (y : ℕ) : Bool := y % 4 = 0 && (y % 100 ≠ 0 || y % 400 = 0)

def daysInMonth (y m : ℕ) : ℕ :=
  if m = 2 then (if isLeapYear y then 29 else 28)
  else if m = 4 ∨ m = 6 ∨ m = 9 ∨ m = 11 then 30
  else 31

/-- Go `getnum` without the fixed-width flag, as used for the `15` hour
chunk: one digit, or two when the second character is also a digit. -/
def readHourNum : List Char → Option (ℕ × List Char)
  | [] => none
  | d1 :: rest =>
    if d1.isDigit then
      match rest with
      | d2 :: rest2 =>
        if d2.isDigit then some ((d1.toNat - 48) * 10 + (d2.toNat - 48), rest2)
        else some (d1.toNat - 48, d2 :: rest2)
      | [] => some (d1.toNat - 48, [])
    else none

/-- Fractional-second digits to nanoseconds: the first nine digits,
right-padded with zeros (further digits are consumed and truncated, as
in Go's `parseNanoseconds`). -/
def fracToNanos (ds : List Char) : ℕ :=
  digitsToNat ((ds ++ List.replicate 9 '0').take 9)

/-- Model of `time.Parse(time.RFC3339, s)` — the union of the strict
fast path and the lax generic layout parse, which is the generic parse's
acceptance. `none` is a parse error. -/
def timeParseRFC3339 (s : String) : Option GoTime :=
  match readNDigits 4 s.toList with
  | none => none
  | some (year, cs) =>
  match expectChar '-' cs with
  | none => none
  | some cs =>
  match readNDigits 2 cs with
  | none => none
  | some (month, cs) =>
  match expectChar '-' cs with
  | none => none
  | some cs =>
  match readNDigits 2 cs with
  | none => none
  | some (day, cs) =>
  match expectChar 'T' cs with
  | none => none
  | some cs =>
  match readHourNum cs with
  | none => none
  | some (hour, cs) =>
  match expectChar ':' cs with
  | none => none
  | some cs =>
  match readNDigits 2 cs with
  | none => none
  | some (minute, cs) =>
  match expectChar ':' cs with
  | none => none
  | some cs =>
  match readNDigits 2 cs with
  | none => none
  | some (second, cs) =>
  if month < 1 ∨ 12 < month ∨ day < 1 ∨ daysInMonth year month < day
      ∨ 23 < hour ∨ 59 < minute ∨ 59 < second then none
  else
    -- optional fractional second
    let (nanos, cs) :=
      match cs with
      | sep :: d :: rest =>
        if (sep = '.' ∨ sep = ',') ∧ d.isDigit then
          let (ds, r) := readDigits (d :: rest)
          (fracToNanos ds, r)
        else (0, sep :: d :: rest)
      | other => (0, other)
    -- zone: literal Z or ±hh:mm
    match cs with
    | ['Z'] => some ⟨year, month, day, hour, minute, second, nanos, 0⟩
    | sgn :: rest =>
      if sgn = '+' ∨ sgn = '-' then
        match readNDigits 2 rest with
        | none => none
        | some (oh, rest) =>
        match expectChar ':' rest with
        | none => none
        | some rest =>
        match readNDigits 2 rest with
        | none => none
        | some (om, rest) =>
          -- the generic parser has no range check on the zone offset
          if ¬rest.isEmpty then none
          else
            some ⟨year, month, day, hour, minute, second, nanos,
              (if sgn = '-' then -1 else 1) * ((oh : ℤ) * 60 + (om : ℤ))⟩
      else none
    | [] => none


/-! ### The payload decoder (`processMessage`, decode half)

`processMessage` first calls `json.Unmarshal` on the payload; that
library step is modelled by the decoder's argument: `none` stands for a
payload that does not parse as a JSON object, `some fields` for the
decoded key/value map. -/

/-- `models.SensorData`. -/
structure SensorData where
  Timestamp : GoTime
  Temperature : GoFloat
  Humidity : GoFloat
  Light : GoFloat
  Device_ID : String
  deriving DecidableEq, Repr

/-- The two ways `processMessage` rejects a message before any database
work: the payload does not unmarshal, or `device_id` is missing or not a
string. -/
inductive DecodeFailure where
  | malformed
  | missingDeviceID
  deriving DecidableEq, Repr

/-- The timestamp selection of `processMessage`: a string field that
parses with the RFC3339 layout is used verbatim; otherwise the current
wall-clock time `now` is substituted silently. `now` is the value
`time.Now()` returns at the decode. -/
def decodeTimestamp (rawData : List (String × GoVal)) (now : GoTime) : GoTime :=
  match mapGet rawData "timestamp" with
  | some (GoVal.vstr tsStr) =>
    match timeParseRFC3339 tsStr with
    | some t => t
    | none => now
  | _ => now

/-- The `device_id` extraction: `rawData["device_id"].(string)`. -/
def deviceStr (rawData : List (String × GoVal)) : Option String :=
  match mapGet rawData "device_id" with
  | some (GoVal.vstr s) => some s
  | _ => none

/-- Decode half of `processMessage` (`internal/mqtt/client.go`): builds
the `SensorData` record or rejects the message. The argument is the
`json.Unmarshal` outcome. -/
def decodeMessage (raw : Option (List (String × GoVal))) (now : GoTime) :
    Except DecodeFailure SensorData :=
  match raw with
  | none => Except.error DecodeFailure.malformed
  | some rawData =>
    let timestamp := decodeTimestamp rawData now
    let temperature := (getFloat64Value rawData "temperature").1
    let humidity := (getFloat64Value rawData "humidity").1
    let light := (getFloat64Value rawData "light").1
    match mapGet rawData "device_id" with
    | some (GoVal.vstr device_id) =>
      Except.ok ⟨timestamp, temperature, humidity, light, device_id⟩
    | _ => Except.error DecodeFailure.missingDeviceID

/-! ### The store gateway (`internal/database`)

The sources contain two near-duplicate variants of the `database`
package. `DatabaseV1` embeds the first one (part_001 lines 1-140):
its `CREATE TABLE` text lacks the comma between the `light` and
`device_id` column definitions and carries a trailing comma, and its
`create_hypertable` call has no `if_not_exists` argument; its insert path
discards the command tag. `DatabaseV2` embeds the second variant
(part_001 lines 141-271): well-formed `CREATE TABLE`,
`if_not_exists => TRUE`, and row-count logging.

The store itself is modelled as a catalog of relations together with an
interpreter for exactly the statement shapes the code emits. The
interpreter parses the statement text, so a syntactically invalid
statement fails the same way Postgres would reject it. -/

inductive ColType where
  | timestamptz
  | doublePrecision
  | text
  deriving DecidableEq, Repr

structure ColDef where
  name : String
  ty : ColType
  notNull : Bool
  deriving DecidableEq, Repr

/-- A bound statement parameter (`$1` ... `$n`); the pipeline only ever
binds times, doubles and text, all non-NULL. -/
inductive PgParam where
  | ptime (t : GoTime)
  | pfloat (f : GoFloat)
  | ptext (s : String)
  deriving DecidableEq, Repr

structure PgTable where
  name : String
  cols : List ColDef
  hypertable : Bool
  rows : List (List PgParam)
  deriving DecidableEq, Repr

/-- The store catalog. -/
structure PgStore where
  tables : List PgTable
  deriving DecidableEq, Repr

def emptyStore : PgStore := ⟨[]⟩

def findTable (st : PgStore) (name : String) : Option PgTable :=
  st.tables.find? (fun tb => tb.name = name)

def replaceTable (st : PgStore) (tb : PgTable) : PgStore :=
  ⟨st.tables.map (fun tb' => if tb'.name = tb.name then tb else tb')⟩

/-- The `information_schema.tables` existence query of `InitializeTable`. -/
def checkTableExists (st : PgStore) (name : String) : Bool :=
  (findTable st name).isSome

inductive PgError where
  | badStmt
  | duplicateTable (t : String)
  | undefinedTable (t : String)
  | undefinedColumn (c : String)
  | alreadyHypertable (t : String)
  | nullViolation (c : String)
  | paramMismatch
  | connLost
  deriving DecidableEq, Repr

/-- SQL lexer tokens for the statement shapes the gateway emits. -/
inductive SqlTok where
  | word (w : String)
  | lparen
  | rparen
  | comma
  | strlit (v : String)
  | pholder (n : ℕ)
  | fatArrow
  | bad
  deriving DecidableEq, Repr

def isWordChar (c : Char) : Bool := c.isAlpha || c.isDigit || c = '_'

/-- Longest prefix satisfying a predicate, with the remainder. -/
def spanPred (p : Char → Bool) : List Char → List Char × List Char
  | [] => ([], [])
  | c :: cs =>
    if p c then
      let (t, r) := spanPred p cs
      (c :: t, r)
    else ([], c :: cs)

def isSqlSpace (c : Char) : Bool := c = ' ' ∨ c = '\n' ∨ c = '\t' ∨ c = '\r'

/-- Tokenize a statement (fuel decreases on every step). -/
def sqlTokenize (fuel : ℕ) (cs : List Char) : List SqlTok :=
  match fuel with
  | 0 => [SqlTok.bad]
  | fuel + 1 =>
    match cs with
    | [] => []
    | c :: rest =>
      if isSqlSpace c then sqlTokenize fuel rest
      else if c = '(' then SqlTok.lparen :: sqlTokenize fuel rest
      else if c = ')' then SqlTok.rparen :: sqlTokenize fuel rest
      else if c = ',' then SqlTok.comma :: sqlTokenize fuel rest
      else if c = '\'' then
        let (v, r) := spanPred (fun x => x ≠ '\'') rest
        match r with
        | '\'' :: r' => SqlTok.strlit (String.mk v) :: sqlTokenize fuel r'
        | _ => [SqlTok.bad]
      else if c = '$' then
        let (ds, r) := readDigits rest
        if ds.isEmpty then [SqlTok.bad]
        else SqlTok.pholder (digitsToNat ds) :: sqlTokenize fuel r
      else if c = '=' then
        match rest with
        | '>' :: r => SqlTok.fatArrow :: sqlTokenize fuel r
        | _ => [SqlTok.bad]
      else if c.isAlpha ∨ c = '_' then
        let (w, r) := spanPred isWordChar (c :: rest)
        SqlTok.word (String.mk w) :: sqlTokenize fuel r
      else [SqlTok.bad]

def tokenizeSQL (s : String) : List SqlTok :=
  sqlTokenize (s.toList.length + 1) s.toList

/-- Column type grammar: the types used by the gateway's statements. -/
def parseColType : List SqlTok → Option (ColType × List SqlTok)
  | SqlTok.word "TIMESTAMPTZ" :: r => some (ColType.timestamptz, r)
  | SqlTok.word "DOUBLE" :: SqlTok.word "PRECISION" :: r =>
    some (ColType.doublePrecision, r)
  | SqlTok.word "TEXT" :: r => some (ColType.text, r)
  | _ => none

def parseNotNull : List SqlTok → Bool × List SqlTok
  | SqlTok.word "NOT" :: SqlTok.word "NULL" :: r => (true, r)
  | r => (false, r)

/-- Comma-separated column definitions up to the closing parenthesis that
ends the statement. -/
def parseColDefs (fuel : ℕ) (toks : List SqlTok) : Option (List ColDef) :=
  match fuel with
  | 0 => none
  | fuel + 1 =>
    match toks with
    | SqlTok.word nm :: r =>
      match parseColType r with
      | none => none
      | some (ty, r1) =>
        let (nn, r2) := parseNotNull r1
        match r2 with
        | SqlTok.comma :: r3 =>
          (parseColDefs fuel r3).map (fun cds => ⟨nm, ty, nn⟩ :: cds)
        | [SqlTok.rparen] => some [⟨nm, ty, nn⟩]
        | _ => none
    | _ => none

def parseCreateTable (toks : List SqlTok) : Option (String × List ColDef) :=
  match toks with
  | SqlTok.word "CREATE" :: SqlTok.word "TABLE" :: SqlTok.word nm
      :: SqlTok.lparen :: rest =>
    (parseColDefs (rest.length + 1) rest).map (fun cds => (nm, cds))
  | _ => none

/-- `SELECT create_hypertable('t', 'col'[, if_not_exists => TRUE])`. -/
def parseHypertableCall (toks : List SqlTok) : Option (String × String × Bool) :=
  match toks with
  | SqlTok.word "SELECT" :: SqlTok.word "create_hypertable" :: SqlTok.lparen
      :: SqlTok.strlit t :: SqlTok.comma :: SqlTok.strlit col :: rest =>
    match rest with
    | [SqlTok.rparen] => some (t, col, false)
    | [SqlTok.comma, SqlTok.word "if_not_exists", SqlTok.fatArrow,
        SqlTok.word "TRUE", SqlTok.rparen] => some (t, col, true)
    | _ => none
  | _ => none

/-- Comma-separated column names up to a closing parenthesis; returns the
names and what follows the parenthesis. -/
def parseNameList (fuel : ℕ) (toks : List SqlTok) :
    Option (List String × List SqlTok) :=
  match fuel with
  | 0 => none
  | fuel + 1 =>
    match toks with
    | SqlTok.word nm :: SqlTok.comma :: r =>
      (parseNameList fuel r).map (fun p => (nm :: p.1, p.2))
    | SqlTok.word nm :: SqlTok.rparen :: r => some ([nm], r)
    | _ => none

/-- `$1, $2, ..., $n)` with consecutive indices starting at `expect`. -/
def parsePholders (fuel : ℕ) (expect : ℕ) (toks : List SqlTok) : Option ℕ :=
  match fuel with
  | 0 => none
  | fuel + 1 =>
    match toks with
    | SqlTok.pholder n :: SqlTok.comma :: r =>
      if n = expect then parsePholders fuel (expect + 1) r else none
    | [SqlTok.pholder n, SqlTok.rparen] =>
      if n = expect then some n else none
    | _ => none

/-- `INSERT INTO t (c1, ..., ck) VALUES ($1, ..., $n)`. -/
def parseInsertStmt (toks : List SqlTok) : Option (String × List String × ℕ) :=
  match toks with
  | SqlTok.word "INSERT" :: SqlTok.word "INTO" :: SqlTok.word nm
      :: SqlTok.lparen :: rest =>
    match parseNameList (rest.length + 1) rest with
    | none => none
    | some (cols, r1) =>
      match r1 with
      | SqlTok.word "VALUES" :: SqlTok.lparen :: r2 =>
        (parsePholders (r2.length + 1) 1 r2).map (fun n => (nm, cols, n))
      | _ => none
  | _ => none

/-- Execute one statement against the store: parse the text and apply
Postgres/TimescaleDB semantics for the three statement shapes the
gateway uses. Returns the new store and the affected-row count. -/
def pgExec (st : PgStore) (sql : String) (args : List PgParam) :
    Except PgError (PgStore × ℕ) :=
  let toks := tokenizeSQL sql
  match parseCreateTable toks with
  | some (nm, cols) =>
    if checkTableExists st nm then Except.error (PgError.duplicateTable nm)
    else Except.ok (⟨st.tables ++ [⟨nm, cols, false, []⟩]⟩, 0)
  | none =>
  match parseHypertableCall toks with
  | some (t, col, ifNotExists) =>
    (match findTable st t with
     | none => Except.error (PgError.undefinedTable t)
     | some tb =>
       if ¬(tb.cols.map ColDef.name).contains col then
         Except.error (PgError.undefinedColumn col)
       else if tb.hypertable then
         if ifNotExists then Except.ok (st, 1)
         else Except.error (PgError.alreadyHypertable t)
       else Except.ok (replaceTable st ⟨tb.name, tb.cols, true, tb.rows⟩, 1))
  | none =>
  match parseInsertStmt toks with
  | some (nm, cols, n) =>
    (match findTable st nm with
     | none => Except.error (PgError.undefinedTable nm)
     | some tb =>
       if ¬cols.all (fun c => (tb.cols.map ColDef.name).contains c) then
         Except.error (PgError.undefinedColumn (String.join cols))
       else if args.length ≠ n ∨ cols.length ≠ n then
         Except.error PgError.paramMismatch
       else if ¬(tb.cols.filter ColDef.notNull).all
           (fun c => cols.contains c.name) then
         Except.error (PgError.nullViolation (String.join cols))
       else
         Except.ok (replaceTable st ⟨tb.name, tb.cols, tb.hypertable,
           tb.rows ++ [args]⟩, 1))
  | none => Except.error PgError.badStmt

/-- Errors returned by the gateway, mirroring the `fmt.Errorf` wrap sites
of `InitializeTable` and `InsertSensorData`. -/
inductive DBError where
  | checkFailed (e : PgError)
  | createFailed (e : PgError)
  | hypertableFailed (e : PgError)
  | insertFailed (e : PgError)
  deriving DecidableEq, Repr

/-- Structured view of the gateway's log lines. -/
inductive LogEvent where
  | creatingTable (t : String)
  | tableCreated (t : String)
  | tableExisted (t : String)
  | insertVerbose (t : String) (time : GoTime) (temp hum light : GoFloat)
      (device : String)
  | rowsAffected (n : ℕ)
  deriving DecidableEq, Repr

/-- The five bound parameters of the insert, in the order the code passes
them: `data.Timestamp, data.Temperature, data.Humidity, data.Light,
data.Device_ID`. -/
def sensorParams (data : SensorData) : List PgParam :=
  [PgParam.ptime data.Timestamp, PgParam.pfloat data.Temperature,
   PgParam.pfloat data.Humidity, PgParam.pfloat data.Light,
   PgParam.ptext data.Device_ID]

/-- The insert statement text, identical in both variants. -/
def insertSQLText (tableName : String) : String :=
  "\n\t\tINSERT INTO " ++ tableName ++
  " (time, temperature, humidity, light, device_id)\n\t\tVALUES ($1, $2, $3, $4, $5)\n\t"

/-- Outcome of one `InsertSensorData` call: the returned error value, the
statements the call executed (with their bound parameters), and the log
lines it emitted. -/
structure InsertTrace where
  result : Except DBError Unit
  stmts : List (String × List PgParam)
  logs : List LogEvent
  deriving DecidableEq, Repr

namespace DatabaseV1

/-- The `CREATE TABLE` text of the first variant, exactly as
`fmt.Sprintf` builds it (note the missing comma after the `light` column
and the trailing comma after `device_id`). -/
def createTableSQLText (tableName : String) : String :=
  "\n\t\t\tCREATE TABLE " ++ tableName ++
  " (\n\t\t\t\ttime TIMESTAMPTZ NOT NULL,\n\t\t\t\ttemperature DOUBLE PRECISION,\n\t\t\t\thumidity DOUBLE PRECISION,\n\t\t\t\tlight DOUBLE PRECISION\n\t\t\t\tdevice_id TEXT NOT NULL,\n\t\t\t)\n\t\t"

/-- The hypertable conversion of the first variant: no `if_not_exists`. -/
def hypertableSQLText (tableName : String) : String :=
  "\n\t\t\tSELECT create_hypertable('" ++ tableName ++ "', 'time')\n\t\t"

/-- `InitializeTable` of the first variant: existence check, then
create-and-convert when absent. The catalog query itself is modelled as
reliable; statement execution follows `pgExec`. -/
def InitializeTable (tableName : String) (st : PgStore) :
    Except DBError PgStore :=
  if ¬checkTableExists st tableName then
    match pgExec st (createTableSQLText tableName) [] with
    | Except.error e => Except.error (DBError.createFailed e)
    | Except.ok (st1, _) =>
      match pgExec st1 (hypertableSQLText tableName) [] with
      | Except.error e => Except.error (DBError.hypertableFailed e)
      | Except.ok (st2, _) => Except.ok st2
  else Except.ok st

/-- `InsertSensorData` of the first variant: a single `Exec` whose
command tag is discarded (`_, err := ...`); no logging on success. The
driver outcome (error, or affected-row count) is the `execResult`
argument. -/
def InsertSensorData (tableName : String) (data : SensorData)
    (execResult : Except PgError ℕ) : InsertTrace :=
  ⟨(match execResult with
    | Except.error e => Except.error (DBError.insertFailed e)
    | Except.ok _ => Except.ok ()),
   [(insertSQLText tableName, sensorParams data)],
   []⟩

end DatabaseV1

namespace DatabaseV2

/-- The `CREATE TABLE` text of the second variant: well-formed column
list. -/
def createTableSQLText (tableName : String) : String :=
  "\n\t\t\tCREATE TABLE " ++ tableName ++
  " (\n\t\t\t\ttime TIMESTAMPTZ NOT NULL,\n\t\t\t\ttemperature DOUBLE PRECISION,\n\t\t\t\thumidity DOUBLE PRECISION,\n\t\t\t\tlight DOUBLE PRECISION,\n\t\t\t\tdevice_id TEXT NOT NULL\n\t\t\t)\n\t\t"

/-- The hypertable conversion of the second variant, with
`if_not_exists => TRUE`. -/
def hypertableSQLText (tableName : String) : String :=
  "\n\t\t\tSELECT create_hypertable('" ++ tableName ++
  "', 'time', if_not_exists => TRUE)\n\t\t"

/-- `InitializeTable` of the second variant. -/
def InitializeTable (tableName : String) (st : PgStore) :
    Except DBError PgStore :=
  if ¬checkTableExists st tableName then
    match pgExec st (createTableSQLText tableName) [] with
    | Except.error e => Except.error (DBError.createFailed e)
    | Except.ok (st1, _) =>
      match pgExec st1 (hypertableSQLText tableName) [] with
      | Except.error e => Except.error (DBError.hypertableFailed e)
      | Except.ok (st2, _) => Except.ok st2
  else Except.ok st

/-- `InsertSensorData` of the second variant: verbose pre-insert log, a
single `Exec`, the affected-row count logged on success, the error
wrapped on failure. A zero row count is only logged, never an error. -/
def InsertSensorData (tableName : String) (data : SensorData)
    (execResult : Except PgError ℕ) : InsertTrace :=
  ⟨(match execResult with
    | Except.error e => Except.error (DBError.insertFailed e)
    | Except.ok _ => Except.ok ()),
   [(insertSQLText tableName, sensorParams data)],
   LogEvent.insertVerbose tableName data.Timestamp data.Temperature
       data.Humidity data.Light data.Device_ID ::
     (match execResult with
      | Except.ok n => [LogEvent.rowsAffected n]
      | Except.error _ => [])⟩

end DatabaseV2

/-- The five columns the specification fixes for the relation. -/
def specCols : List ColDef :=
  [⟨"time", ColType.timestamptz, true⟩,
   ⟨"temperature", ColType.doublePrecision, false⟩,
   ⟨"humidity", ColType.doublePrecision, false⟩,
   ⟨"light", ColType.doublePrecision, false⟩,
   ⟨"device_id", ColType.text, true⟩]

/-- The store after the second variant successfully initializes the
relation `t`. -/
def initializedStore (t : String) : PgStore := ⟨[⟨t, specCols, true, []⟩]⟩

example : parseCreateTable (tokenizeSQL (DatabaseV1.createTableSQLText "sensor_data"))
    = none := by decide
example : DatabaseV2.InitializeTable "sensor_data" emptyStore
    = Except.ok (initializedStore "sensor_data") := by decide
example : DatabaseV1.InitializeTable "sensor_data" emptyStore
    = Except.error (DBError.createFailed PgError.badStmt) := by decide
example : parseInsertStmt (tokenizeSQL (insertSQLText "sensor_data"))
    = some ("sensor_data", ["time", "temperature", "humidity", "light", "device_id"], 5)
    := by decide

/-! ### `processMessage` end to end, and the subscription session -/

/-- How one message's handling ended. Every constructor corresponds to a
`return` path of `processMessage`; none of them escapes the handler. -/
inductive ProcOutcome where
  | droppedMalformed
  | droppedMissingDeviceID
  | insertFailed (e : DBError)
  | stored
  deriving DecidableEq, Repr

/-- Trace of one `processMessage` call: the outcome and the append
attempts made against the gateway (the record of each attempted
`InsertSensorData` call). -/
structure ProcessTrace where
  outcome : ProcOutcome
  appendAttempts : List SensorData
  deriving DecidableEq, Repr

/-- `processMessage` (`internal/mqtt/client.go`): decode, then insert via
the gateway (`c.db.InsertSensorData`, embedded here by its second
variant, whose returned error value coincides with the first variant's).
`raw` is the `json.Unmarshal` outcome, `now` the wall clock at decode,
`execResult` the driver outcome of the one insert statement. -/
def processMessage (raw : Option (List (String × GoVal))) (now : GoTime)
    (tableName : String) (execResult : Except PgError ℕ) : ProcessTrace :=
  match decodeMessage raw now with
  | Except.error DecodeFailure.malformed => ⟨ProcOutcome.droppedMalformed, []⟩
  | Except.error DecodeFailure.missingDeviceID =>
    ⟨ProcOutcome.droppedMissingDeviceID, []⟩
  | Except.ok sensorData =>
    match (DatabaseV2.InsertSensorData tableName sensorData execResult).result with
    | Except.error e => ⟨ProcOutcome.insertFailed e, [sensorData]⟩
    | Except.ok _ => ⟨ProcOutcome.stored, [sensorData]⟩

/-- Modelled from the spec: the broker session states. The state machine
itself lives in the paho MQTT library; the repository only installs
handlers (`Subscribe`'s message handler, the connection-lost and
reconnecting handlers of `NewClient`), so the transition structure is the
one section 4.3 of the specification describes. -/
inductive SessState where
  | disconnected
  | connected
  | subscribed
  | reconnecting
  deriving DecidableEq, Repr

/-- Session events: the connection-level events the transport raises and
inbound messages. An inbound message carries the unmarshal outcome, the
wall clock and the driver outcome its handling will observe. -/
inductive SessEvent where
  | connectOk
  | subscribeOk
  | connectionLost
  | transportRestored
  | stopRequested
  | inbound (raw : Option (List (String × GoVal))) (now : GoTime)
      (execResult : Except PgError ℕ)

/-- One step of the session. Connection-level events transition the
state (modelled from the spec, section 4.3); an inbound message only runs
the handler `Subscribe` installed — it logs, calls `processMessage` and
returns, so the state component is untouched whatever the handler's
outcome. -/
def sessionStep (st : SessState) (ev : SessEvent) (tableName : String) :
    SessState × Option ProcessTrace :=
  match ev with
  | SessEvent.connectOk => (SessState.connected, none)
  | SessEvent.subscribeOk => (SessState.subscribed, none)
  | SessEvent.connectionLost => (SessState.reconnecting, none)
  | SessEvent.transportRestored => (SessState.subscribed, none)
  | SessEvent.stopRequested => (SessState.disconnected, none)
  | SessEvent.inbound raw now execResult =>
    (st, some (processMessage raw now tableName execResult))

/-! ### The client stop channel (`Stop` / `WaitForStop`) -/

/-- The state of an unbuffered Go channel that is never sent to: it is
either open or closed. -/
inductive ChanState where
  | opened
  | closed
  deriving DecidableEq, Repr

/-- Go's `close`: closing an open channel closes it; closing an already
closed channel panics at runtime with this message. -/
def closeChan : ChanState → Except String ChanState
  | ChanState.opened => Except.ok ChanState.closed
  | ChanState.closed => Except.error "close of closed channel"

namespace Mqtt

/-- The `mqtt.Client` structure restricted to the state the stop path
touches; the broker handle, the gateway and the configuration are opaque
external handles. -/
structure Client where
  stopChan : ChanState
  deriving DecidableEq, Repr

/-- `NewClient` allocates `stopChan: make(chan struct{})` — open. -/
def NewClient : Client := ⟨ChanState.opened⟩

/-- `Stop`: `close(c.stopChan)`. The error value is a Go runtime panic,
not a returned error. -/
def Stop (c : Client) : Except String Client :=
  match closeChan c.stopChan with
  | Except.ok ch => Except.ok ⟨ch⟩
  | Except.error p => Except.error p

/-- `WaitForStop` blocks on `<-c.stopChan`; nothing is ever sent on the
channel, so the receive completes exactly when the channel is closed. -/
def waitForStopReturns (c : Client) : Bool := c.stopChan = ChanState.closed

end Mqtt

/-! ### Claim inputs and the spec-side field rule -/

/-- A fixed wall-clock value standing for `time.Now()` at decode. -/
def now0 : GoTime := ⟨2024, 1, 1, 0, 0, 0, 0, 0⟩

/-- A concrete message for the C2 witness: RFC3339 timestamp with a
non-UTC offset. -/
def c2input : List (String × GoVal) :=
  [("timestamp", GoVal.vstr "2023-05-20T15:04:05+02:00"),
   ("device_id", GoVal.vstr "sensor-1")]

/-- A concrete message for the C3 witness: `device_id` present but not a
string. -/
def c3input : List (String × GoVal) :=
  [("temperature", GoVal.vfloat (Rat.divInt 49 2)),
   ("device_id", GoVal.vfloat (Rat.divInt 7 1))]

/-- A concrete record for the C6 and C10 closed statements. -/
def sampleRec : SensorData :=
  ⟨now0, GoFloat.fin (Rat.divInt 49 2), GoFloat.fin 0, GoFloat.fin 0,
   "sensor-1"⟩

/-! ### Sanity evaluations of the embedding -/

example : parseFloat "24.5" = Except.ok (GoFloat.fin (Rat.divInt 49 2)) := by decide

example : timeParseRFC3339 "2023-05-20T15:04:05Z"
    = some ⟨2023, 5, 20, 15, 4, 5, 0, 0⟩ := by decide
example : timeParseRFC3339 "2023-05-20T15:04:05+02:30"
    = some ⟨2023, 5, 20, 15, 4, 5, 0, 150⟩ := by decide
example : timeParseRFC3339 "2023-05-20T15:04:05.25-01:00"
    = some ⟨2023, 5, 20, 15, 4, 5, 250000000, -60⟩ := by decide
example : timeParseRFC3339 "2023-02-29T00:00:00Z" = none := by decide
example : timeParseRFC3339 "not-a-time" = none := by decide
example : timeParseRFC3339 "2023-05-20 15:04:05Z" = none := by decide
example : timeParseRFC3339 "2023-05-20T5:04:05Z"
    = some ⟨2023, 5, 20, 5, 4, 5, 0, 0⟩ := by decide
example : timeParseRFC3339 "2023-05-20T15:04:05+24:00"
    = some ⟨2023, 5, 20, 15, 4, 5, 0, 1440⟩ := by decide
example : timeParseRFC3339 "2023-05-20T15:04:05+10:60"
    = some ⟨2023, 5, 20, 15, 4, 5, 0, 660⟩ := by decide
example : timeParseRFC3339 "2023-05-20T24:00:00Z" = none := by decide
example : timeParseRFC3339 "2023-05-20T15:4:05Z" = none := by decide

example : parseCreateTable (tokenizeSQL (DatabaseV2.createTableSQLText "sensor_data"))
    = some ("sensor_data", specCols) := by decide

/-! ## Claims -/

/-- C2: a string `timestamp` that parses under the RFC3339 layout is used
verbatim (offset included); absence, a non-string value, or a parse
failure silently substitutes the wall clock at decode (`now`, the value
`time.Now()` returns, hence at-or-after the time decode began), and none
of this fails the decode. -/
theorem c2_timestamp_fallback (raw : List (String × GoVal)) (now : GoTime) :
    (∀ ts t, mapGet raw "timestamp" = some (GoVal.vstr ts) →
      timeParseRFC3339 ts = some t → decodeTimestamp raw now = t) ∧
    (∀ ts, mapGet raw "timestamp" = some (GoVal.vstr ts) →
      timeParseRFC3339 ts = none → decodeTimestamp raw now = now) ∧
    (∀ v, mapGet raw "timestamp" = some v → (∀ s, v ≠ GoVal.vstr s) →
      decodeTimestamp raw now = now) ∧
    (mapGet raw "timestamp" = none → decodeTimestamp raw now = now) ∧
    (∀ dev, mapGet raw "device_id" = some (GoVal.vstr dev) →
      (decodeMessage (some raw) now).isOk = true) ∧
    (∀ rec, decodeMessage (some raw) now = Except.ok rec →
      rec.Timestamp = decodeTimestamp raw now) := by
  refine ⟨?_, ?_, ?_, ?_, ?_, ?_⟩
  · intro ts t hts hp
    simp [decodeTimestamp, hts, hp]
  · intro ts hts hp
    simp [decodeTimestamp, hts, hp]
  · intro v hv hns
    cases v with
    | vstr s => exact absurd rfl (hns s)
    | vfloat q => simp [decodeTimestamp, hv]
    | vbool b => simp [decodeTimestamp, hv]
    | vnull => simp [decodeTimestamp, hv]
    | varr xs => simp [decodeTimestamp, hv]
    | vobj fields => simp [decodeTimestamp, hv]
    | vint n => simp [decodeTimestamp, hv]
    | vint64 n => simp [decodeTimestamp, hv]
  · intro h
    simp [decodeTimestamp, h]
  · intro dev hdev
    simp [decodeMessage, hdev, Except.isOk, Except.toBool]
  · intro rec hrec
    unfold decodeMessage at hrec
    cases h : mapGet raw "device_id" with
    | none => simp [h] at hrec
    | some v =>
      cases v with
      | vstr s =>
        simp [h] at hrec
        rw [← hrec]
      | vfloat q => simp [h] at hrec
      | vbool b => simp [h] at hrec
      | vnull => simp [h] at hrec
      | varr xs => simp [h] at hrec
      | vobj fields => simp [h] at hrec
      | vint n => simp [h] at hrec
      | vint64 n => simp [h] at hrec

/-- Witness for C2: the parsed instant, offset `+02:00` preserved, is
used verbatim for a concrete message. -/
theorem c2_timestamp_fallback_witness :
    (mapGet c2input "timestamp"
      = some (GoVal.vstr "2023-05-20T15:04:05+02:00")) ∧
    (timeParseRFC3339 "2023-05-20T15:04:05+02:00"
      = some ⟨2023, 5, 20, 15, 4, 5, 0, 120⟩) ∧
    decodeTimestamp c2input now0 = ⟨2023, 5, 20, 15, 4, 5, 0, 120⟩ :=
  ⟨by rfl, by decide,
   (c2_timestamp_fallback c2input now0).1 "2023-05-20T15:04:05+02:00"
     ⟨2023, 5, 20, 15, 4, 5, 0, 120⟩ (by rfl) (by decide)⟩

/-- C3: decoding fails exactly when the payload does not unmarshal
(reason `malformed`) or `device_id` is absent or not a string (reason
`missingDeviceID`); every failure produces no record and attempts no
append, and every other message decodes successfully. -/
theorem c3_decode_failure_characterization (obj : List (String × GoVal))
    (now : GoTime) (t : String) (ex : Except PgError ℕ) :
    decodeMessage none now = Except.error DecodeFailure.malformed ∧
    (processMessage none now t ex).appendAttempts = [] ∧
    (decodeMessage (some obj) now = Except.error DecodeFailure.missingDeviceID
      ↔ deviceStr obj = none) ∧
    ((decodeMessage (some obj) now).isOk = (deviceStr obj).isSome) ∧
    (processMessage (some obj) now t ex).appendAttempts.length
      = (if (deviceStr obj).isSome then 1 else 0) := by
  refine ⟨rfl, rfl, ?_, ?_, ?_⟩
  · unfold decodeMessage deviceStr
    cases h : mapGet obj "device_id" with
    | none => simp [h]
    | some v => cases v <;> simp [h]
  · unfold decodeMessage deviceStr
    cases h : mapGet obj "device_id" with
    | none => simp [h, Except.isOk, Except.toBool]
    | some v => cases v <;> simp [h, Except.isOk, Except.toBool]
  · unfold processMessage decodeMessage deviceStr
    cases h : mapGet obj "device_id" with
    | none => simp [h]
    | some v =>
      cases v
      all_goals simp [h]
      all_goals cases ex <;> simp [DatabaseV2.InsertSensorData]

/-- Witness for C3 at a message whose `device_id` is a number: decoding
fails with `missingDeviceID` and no append is attempted. -/
theorem c3_decode_failure_characterization_witness :
    decodeMessage none now0 = Except.error DecodeFailure.malformed ∧
    (processMessage none now0 "sensor_data" (Except.ok 1)).appendAttempts
      = [] ∧
    (decodeMessage (some c3input) now0
        = Except.error DecodeFailure.missingDeviceID
      ↔ deviceStr c3input = none) ∧
    ((decodeMessage (some c3input) now0).isOk
      = (deviceStr c3input).isSome) ∧
    (processMessage (some c3input) now0 "sensor_data"
        (Except.ok 1)).appendAttempts.length
      = (if (deviceStr c3input).isSome then 1 else 0) :=
  c3_decode_failure_characterization c3input now0 "sensor_data" (Except.ok 1)

/-- C7 (corrected claim): the decoder rejects exactly the messages whose
`device_id` is absent or not a string; an accepted message's record
carries the message's `device_id` string unchanged — there is no
non-emptiness check, so the empty string is accepted. -/
theorem c7_device_id_string_required (obj : List (String × GoVal))
    (now : GoTime) :
    decodeMessage (some obj) now =
      (match deviceStr obj with
       | some s => Except.ok ⟨decodeTimestamp obj now,
           (getFloat64Value obj "temperature").1,
           (getFloat64Value obj "humidity").1,
           (getFloat64Value obj "light").1, s⟩
       | none => Except.error DecodeFailure.missingDeviceID) := by
  unfold decodeMessage deviceStr
  cases h : mapGet obj "device_id" with
  | none => simp [h]
  | some v => cases v <;> simp [h]

/-- Counterexample to C7 as stated: the message
`{"device_id": ""}` decodes successfully and the produced record's
`device_id` is the empty string, so not every record produced by the
decoder has a non-empty `device_id`. -/
theorem c7_empty_device_id_accepted :
    decodeMessage (some [("device_id", GoVal.vstr "")]) now0
      = Except.ok ⟨now0, GoFloat.fin 0, GoFloat.fin 0, GoFloat.fin 0, ""⟩ ∧
    ("" : String).length = 0 := by
  exact ⟨by rfl, rfl⟩

/-- C4 (code bug in the first variant): against a store where the
relation is absent, the first variant's `InitializeTable` fails — its
`CREATE TABLE` text is syntactically invalid — so two sequential
invocations both return an error instead of succeeding idempotently;
since the failed call leaves the catalog unchanged, the second invocation
is the same computation. The exists-branch no-op holds in both variants,
and the second variant initializes idempotently exactly as the claim
states. -/
theorem c4_initialize_idempotence_bug :
    DatabaseV1.InitializeTable "sensor_data" emptyStore
      = Except.error (DBError.createFailed PgError.badStmt) ∧
    DatabaseV1.InitializeTable "sensor_data" (initializedStore "sensor_data")
      = Except.ok (initializedStore "sensor_data") ∧
    DatabaseV2.InitializeTable "sensor_data" emptyStore
      = Except.ok (initializedStore "sensor_data") ∧
    DatabaseV2.InitializeTable "sensor_data" (initializedStore "sensor_data")
      = Except.ok (initializedStore "sensor_data") := by
  refine ⟨by decide, by decide, by decide, by decide⟩

/-- C5 (code bug in the first variant): the first variant's `CREATE
TABLE` text does not parse (missing comma between the `light` and
`device_id` column definitions, trailing comma), so with the relation
absent nothing is created and initialization errors; moreover its
`create_hypertable` call, lacking `if_not_exists`, errors against an
already-partitioned relation. The second variant creates exactly the
five specified columns with `time` and `device_id` non-null, converts to
a hypertable, and its conversion is idempotent. -/
theorem c5_schema_creation_bug :
    parseCreateTable (tokenizeSQL (DatabaseV1.createTableSQLText "sensor_data"))
      = none ∧
    DatabaseV1.InitializeTable "sensor_data" emptyStore
      = Except.error (DBError.createFailed PgError.badStmt) ∧
    pgExec (initializedStore "sensor_data")
        (DatabaseV1.hypertableSQLText "sensor_data") []
      = Except.error (PgError.alreadyHypertable "sensor_data") ∧
    parseCreateTable (tokenizeSQL (DatabaseV2.createTableSQLText "sensor_data"))
      = some ("sensor_data", specCols) ∧
    DatabaseV2.InitializeTable "sensor_data" emptyStore
      = Except.ok (initializedStore "sensor_data") ∧
    pgExec (initializedStore "sensor_data")
        (DatabaseV2.hypertableSQLText "sensor_data") []
      = Except.ok (initializedStore "sensor_data", 1) := by
  refine ⟨by decide, by decide, by decide, by decide, by decide, by decide⟩

/-- C6 (amended): both insert variants execute exactly one `INSERT`
statement naming the columns in the fixed order `time, temperature,
humidity, light, device_id` and binding the record's five fields in that
order; a driver error is surfaced as the wrapped store error with no
retry; a successful call returns success whatever the affected-row count,
zero included. The second variant logs the affected-row count; the first
variant discards the command tag, so the count is not logged there.
Against the initialized store the statement appends exactly one row. -/
theorem c6_insert_semantics (t : String) (data : SensorData)
    (ex : Except PgError ℕ) :
    (DatabaseV1.InsertSensorData t data ex).stmts
      = [(insertSQLText t, sensorParams data)] ∧
    (DatabaseV2.InsertSensorData t data ex).stmts
      = [(insertSQLText t, sensorParams data)] ∧
    parseInsertStmt (tokenizeSQL (insertSQLText "sensor_data"))
      = some ("sensor_data",
          ["time", "temperature", "humidity", "light", "device_id"], 5) ∧
    (DatabaseV1.InsertSensorData t data ex).result
      = (DatabaseV2.InsertSensorData t data ex).result ∧
    (DatabaseV2.InsertSensorData t data ex).result
      = (match ex with
         | Except.error e => Except.error (DBError.insertFailed e)
         | Except.ok _ => Except.ok ()) ∧
    (DatabaseV2.InsertSensorData t data ex).logs
      = LogEvent.insertVerbose t data.Timestamp data.Temperature
          data.Humidity data.Light data.Device_ID ::
        (match ex with
         | Except.ok n => [LogEvent.rowsAffected n]
         | Except.error _ => []) ∧
    (DatabaseV1.InsertSensorData t data ex).logs = [] ∧
    pgExec (initializedStore "sensor_data") (insertSQLText "sensor_data")
        (sensorParams data)
      = Except.ok (⟨[⟨"sensor_data", specCols, true, [sensorParams data]⟩]⟩, 1)
    := by
  refine ⟨rfl, rfl, by decide, ?_, rfl, rfl, rfl, ?_⟩
  · cases ex <;> rfl
  · rfl

/-- Witness for C6: the amended claim applied at a concrete record with a
zero affected-row count — the call still returns success. -/
theorem c6_insert_semantics_witness :
    (DatabaseV1.InsertSensorData "sensor_data" sampleRec (Except.ok 0)).stmts
      = [(insertSQLText "sensor_data", sensorParams sampleRec)] ∧
    (DatabaseV2.InsertSensorData "sensor_data" sampleRec (Except.ok 0)).stmts
      = [(insertSQLText "sensor_data", sensorParams sampleRec)] ∧
    parseInsertStmt (tokenizeSQL (insertSQLText "sensor_data"))
      = some ("sensor_data",
          ["time", "temperature", "humidity", "light", "device_id"], 5) ∧
    (DatabaseV1.InsertSensorData "sensor_data" sampleRec (Except.ok 0)).result
      = (DatabaseV2.InsertSensorData "sensor_data" sampleRec
          (Except.ok 0)).result ∧
    (DatabaseV2.InsertSensorData "sensor_data" sampleRec (Except.ok 0)).result
      = (match (Except.ok 0 : Except PgError ℕ) with
         | Except.error e => Except.error (DBError.insertFailed e)
         | Except.ok _ => Except.ok ()) ∧
    (DatabaseV2.InsertSensorData "sensor_data" sampleRec (Except.ok 0)).logs
      = LogEvent.insertVerbose "sensor_data" sampleRec.Timestamp
          sampleRec.Temperature sampleRec.Humidity sampleRec.Light
          sampleRec.Device_ID ::
        (match (Except.ok 0 : Except PgError ℕ) with
         | Except.ok n => [LogEvent.rowsAffected n]
         | Except.error _ => []) ∧
    (DatabaseV1.InsertSensorData "sensor_data" sampleRec (Except.ok 0)).logs
      = [] ∧
    pgExec (initializedStore "sensor_data") (insertSQLText "sensor_data")
        (sensorParams sampleRec)
      = Except.ok (⟨[⟨"sensor_data", specCols, true,
          [sensorParams sampleRec]⟩]⟩, 1) :=
  c6_insert_semantics "sensor_data" sampleRec (Except.ok 0)

/-- Counterexample to C6 as stated: in the first variant
(`src/unnamed/part_001` lines 92-106) an otherwise-successful call with
an affected-row count of zero returns success but emits no log at all —
the zero count is not treated as a logged observability signal there. -/
theorem c6_zero_rows_unlogged_in_v1 :
    (DatabaseV1.InsertSensorData "sensor_data" sampleRec
        (Except.ok 0)).result = Except.ok () ∧
    (DatabaseV1.InsertSensorData "sensor_data" sampleRec
        (Except.ok 0)).logs = [] := ⟨rfl, rfl⟩

/-- C8: an inbound message never transitions the session state machine,
whatever its unmarshal outcome, wall clock or driver outcome — the
installed handler runs `processMessage`, which always returns with one of
the four per-message outcomes (dropped-malformed, dropped-missing-id,
insert-failed, stored); only connection-level and shutdown events move
the state. -/
theorem c8_message_errors_stay_local (st : SessState)
    (raw : Option (List (String × GoVal))) (now : GoTime) (t : String)
    (ex : Except PgError ℕ) :
    (sessionStep st (SessEvent.inbound raw now ex) t).1 = st ∧
    (sessionStep st (SessEvent.inbound raw now ex) t).2
      = some (processMessage raw now t ex) ∧
    ((processMessage raw now t ex).outcome = ProcOutcome.droppedMalformed
      ∨ (processMessage raw now t ex).outcome
          = ProcOutcome.droppedMissingDeviceID
      ∨ (∃ e, (processMessage raw now t ex).outcome
          = ProcOutcome.insertFailed e)
      ∨ (processMessage raw now t ex).outcome = ProcOutcome.stored) ∧
    (sessionStep st SessEvent.connectionLost t).1 = SessState.reconnecting ∧
    (sessionStep st SessEvent.transportRestored t).1 = SessState.subscribed ∧
    (sessionStep st SessEvent.stopRequested t).1 = SessState.disconnected := by
  refine ⟨rfl, rfl, ?_, rfl, rfl, rfl⟩
  cases hout : (processMessage raw now t ex).outcome with
  | droppedMalformed => exact Or.inl rfl
  | droppedMissingDeviceID => exact Or.inr (Or.inl rfl)
  | insertFailed e => exact Or.inr (Or.inr (Or.inl ⟨e, rfl⟩))
  | stored => exact Or.inr (Or.inr (Or.inr rfl))

/-- C9: the numeric-string scanner accepts a leading decimal prefix and
ignores trailing characters — `"24.5abc"` parses to `24.5` with success,
flows through `getFloat64Value` as an accepted value, and a message
carrying it decodes to a record with temperature `24.5` rather than the
`0.0` default. -/
theorem c9_numeric_prefix_scan :
    parseFloat "24.5abc" = Except.ok (GoFloat.fin (Rat.divInt 49 2)) ∧
    getFloat64Value [("temperature", GoVal.vstr "24.5abc")] "temperature"
      = (GoFloat.fin (Rat.divInt 49 2), true) ∧
    decodeMessage (some [("temperature", GoVal.vstr "24.5abc"),
        ("device_id", GoVal.vstr "sensor-1")]) now0
      = Except.ok ⟨now0, GoFloat.fin (Rat.divInt 49 2), GoFloat.fin 0,
          GoFloat.fin 0, "sensor-1"⟩ := by
  refine ⟨by decide, by decide, by rfl⟩

/-- C10: `Stop` is not idempotent — the first call closes the stop
channel, which releases every `WaitForStop` waiter, and any further call
panics with Go's close-of-closed-channel runtime error. -/
theorem c10_stop_not_idempotent :
    Mqtt.Stop Mqtt.NewClient = Except.ok ⟨ChanState.closed⟩ ∧
    Mqtt.waitForStopReturns ⟨ChanState.closed⟩ = true ∧
    Mqtt.waitForStopReturns Mqtt.NewClient = false ∧
    (∀ c r, Mqtt.Stop c = Except.ok r →
      Mqtt.Stop r = Except.error "close of closed channel") := by
  refine ⟨rfl, rfl, by decide, ?_⟩
  intro c r h
  cases c with
  | mk ch =>
    cases ch with
    | opened =>
      cases h
      rfl
    | closed => cases h

/-- Witness for C10: two successive `Stop` calls on a fresh client — the
first succeeds, the second panics. -/
theorem c10_stop_not_idempotent_witness :
    Mqtt.Stop Mqtt.NewClient = Except.ok ⟨ChanState.closed⟩ ∧
    Mqtt.Stop ⟨ChanState.closed⟩
      = Except.error "close of closed channel" :=
  ⟨by rfl, c10_stop_not_idempotent.2.2.2 Mqtt.NewClient ⟨ChanState.closed⟩
    (by rfl)⟩
